import Mathlib

/-!
Shallow embedding of the KWS backend provisioning/reclamation core
(`src/backend/server_router.py`, `src/backend/container_router.py`,
`src/util/scheduler.py`, `src/OpenStack/openstack_controller.py`,
`src/backend/db_router.py`, `src/model/db_models.py`).

Modelling conventions:
- The SQLAlchemy session is explicit state passing: each handler threads the
  committed database snapshot and the staged (session) state; `rollback` or
  closing the session without commit restores the committed snapshot.
- Cloud-provider calls are recorded in an event log of `Op` values; a fault
  oracle `Op → Bool` decides which provider call (or the rental commit)
  raises.  The log records provider calls that completed.
- `one_or_none` / `one` of SQLAlchemy are `oneOrNone` / `one` below; they
  raise (return `Except.error`) on multiple rows (`one` also on zero rows).
- The Python `and` between SQLAlchemy column expressions (used in the
  NodeFlavor / NodeNetwork existence checks) evaluates `bool(left == right)`,
  which is `False` for distinct operands, so the whole conjunction reduces to
  its FIRST condition only.  The embedding therefore filters those checks by
  flavor/network name alone, exactly as the generated SQL does.
- An unhandled Python exception (escaping every `try`) is the result
  `Res.crash`; the session closes without commit, so the database snapshot is
  unchanged.
-/

namespace KWS

/-- Calendar date as stored in the `Date` columns of `db_models.py`. -/
structure Date where
  y : Nat
  m : Nat
  d : Nat
deriving DecidableEq, Repr

/-- Strict `<` on dates, as used by `Server.end_date < today` in
`scheduler.py` (lexicographic on year, month, day). -/
def Date.ltb (a b : Date) : Bool :=
  decide (a.y < b.y) ||
    (a.y == b.y && (decide (a.m < b.m) || (a.m == b.m && decide (a.d < b.d))))

/-- Row of the `server` table (`db_models.py`, class `Server`).  The `id`
primary key is irrelevant to the claims and omitted. -/
structure ServerRec where
  user_name : String
  server_name : String
  start_date : Date
  end_date : Date
  floating_ip : String
  network_name : String
  node_name : String
  flavor_name : String
  image_name : String
deriving DecidableEq, Repr

/-- Row of the container table.  The class is imported by the routers but its
declaration is not under `src/`; fields follow its construction sites in
`container_router.py` (`rental`, lines 69-80) and spec §3. -/
structure ContainerRec where
  user_name : String
  container_name : String
  start_date : Date
  end_date : Date
  image_name : String
  password : String
  ip : String
  port : String
  network_name : String
  node_name : String
deriving DecidableEq, Repr

/-- Row of the flavor table (InfrastructureRecord of kind flavor).  The class
is imported by the routers but declared outside `src/`; fields follow its
construction site in `server_router.py` (lines 55-61) and spec §3. -/
structure FlavorRec where
  name : String
  vcpu : Nat
  ram : Nat
  disk : Nat
  is_default : Bool
deriving DecidableEq, Repr

/-- Row of the network table (InfrastructureRecord of kind network); fields
follow its construction sites in the routers and spec §3. -/
structure NetworkRec where
  name : String
  cidr : String
  is_default : Bool
deriving DecidableEq, Repr

/-- Row of the node-flavor join table (NodeInfrastructureLink for flavors);
fields follow the queries in `server_router.py` and spec §3. -/
structure NodeFlavorRec where
  flavor_name : String
  node_name : String
deriving DecidableEq, Repr

/-- Row of the node-network join table (NodeInfrastructureLink for networks);
fields follow its construction site in the routers and spec §3. -/
structure NodeNetworkRec where
  node_name : String
  network_name : String
deriving DecidableEq, Repr

/-- The inventory store: one field per table touched by the claims. -/
structure DB where
  servers : List ServerRec
  containers : List ContainerRec
  flavors : List FlavorRec
  networks : List NetworkRec
  nodeFlavors : List NodeFlavorRec
  nodeNetworks : List NodeNetworkRec
deriving DecidableEq, Repr

/-- The parts of `openstack_config` the embedded code reads. -/
structure Config where
  default_internal_network : String
  external_network : String
deriving DecidableEq, Repr

/-- Cloud-provider calls (and the rental commit) as observable events.
`networkIsolation` stands for `util.backend_utils.network_isolation` and
`networkDelete` for `util.backend_utils.network_delete`.
Modelled from the spec: those two helpers are not under `src/`; per spec
§4.1/§6 they materialize (create network, subnet, router attachment) resp.
tear down the per-node network on the cloud side, so each is one provider
event here. -/
inductive Op where
  | createFlavor (flavor node : String)
  | deleteFlavor (flavor node : String)
  | networkIsolation (network node : String)
  | networkDelete (network node : String)
  | createServer (server node : String)
  | allocateIp (server node : String)
  | deleteServer (server node : String)
  | createContainer (container node : String)
  | deleteContainer (container node : String)
  | commitRental
deriving DecidableEq, Repr

/-- HTTP-level outcome of one handler invocation. -/
inductive Res where
  | ok
  | dupName
  | flavorErr
  | networkErr
  | backendErr
  | badPassword
  | crash
deriving DecidableEq, Repr

/-- SQLAlchemy `Result.one_or_none`: `none` on zero rows, the row on exactly
one, raises (`error`) on several. -/
def oneOrNone {α : Type} : List α → Except Unit (Option α)
  | [] => .ok none
  | [a] => .ok (some a)
  | _ => .error ()

/-- SQLAlchemy `Result.one`: the row on exactly one, raises otherwise. -/
def one {α : Type} : List α → Except Unit α
  | [a] => .ok a
  | _ => .error ()

/-- The fault oracle under which every provider call and commit succeeds. -/
def noFaults : Op → Bool := fun _ => false

/-- Result of one inlined shared-infrastructure (ensure) section:
session state to continue with, provider calls made, and `some r` when the
section returned early with HTTP result `r` (the session then holds the
committed snapshot again). -/
structure EnsureOut where
  s : DB
  log : List Op
  err : Option Res
deriving DecidableEq, Repr

/-- `ServerCreateRequestDTO` fields read by `server_rent`. -/
structure SReq where
  user_name : String
  server_name : String
  start_date : Date
  end_date : Date
  network_name : Option String
  subnet_cidr : String
  node_name : String
  flavor_name : String
  image_name : String
  vcpus : Nat
  ram : Nat
  disk : Nat
deriving DecidableEq, Repr

/-- Flavor ensure section of `server_rent` (`server_router.py` lines 50-77):
insert the Flavor row if absent, check the NodeFlavor link (the faulty `and`
reduces the check to flavor name alone; `one_or_none` raises on several
rows), create the cloud flavor when no link was found.  The except block
rolls the session back, calls `delete_flavor` unconditionally and returns
500; no NodeFlavor link is ever inserted by this code. -/
def flavorEnsure (fault : Op → Bool) (req : SReq) (db : DB) : EnsureOut :=
  let s1 :=
    if (db.flavors.filter (fun f => f.name == req.flavor_name)).isEmpty then
      { db with flavors := db.flavors ++
          [⟨req.flavor_name, req.vcpus, req.ram, req.disk, false⟩] }
    else db
  let handler : EnsureOut :=
    if fault (.deleteFlavor req.flavor_name req.node_name) then
      ⟨db, [], some .crash⟩
    else
      ⟨db, [.deleteFlavor req.flavor_name req.node_name], some .flavorErr⟩
  match oneOrNone (s1.nodeFlavors.filter
      (fun nf => nf.flavor_name == req.flavor_name)) with
  | .error _ => handler
  | .ok (some _) => ⟨s1, [], none⟩
  | .ok none =>
    if fault (.createFlavor req.flavor_name req.node_name) then handler
    else ⟨s1, [.createFlavor req.flavor_name req.node_name], none⟩

/-- Network ensure section of `server_rent` (`server_router.py` lines
79-114): insert the Network row if absent, check the NodeNetwork link (the
faulty `and` reduces the check to network name alone), run
`network_isolation` and insert the link when no link was found.  The except
block re-queries the link with the CORRECT two-column filter, calls
`network_delete` when the link exists and its network is not a default,
rolls back and returns 500. -/
def networkEnsureS (fault : Op → Bool) (netName : String) (req : SReq)
    (committed s : DB) : EnsureOut :=
  let s2 :=
    if (s.networks.filter (fun n => n.name == netName)).isEmpty then
      { s with networks := s.networks ++ [⟨netName, req.subnet_cidr, false⟩] }
    else s
  let handler : EnsureOut :=
    match oneOrNone (s2.nodeNetworks.filter
        (fun nn => nn.network_name == netName &&
                   nn.node_name == req.node_name)) with
    | .error _ => ⟨committed, [], some .crash⟩
    | .ok none => ⟨committed, [], some .networkErr⟩
    | .ok (some _) =>
      match s2.networks.find? (fun n => n.name == netName) with
      | none => ⟨committed, [], some .crash⟩
      | some net =>
        if net.is_default then ⟨committed, [], some .networkErr⟩
        else if fault (.networkDelete netName req.node_name) then
          ⟨committed, [], some .crash⟩
        else
          ⟨committed, [.networkDelete netName req.node_name],
            some .networkErr⟩
  match oneOrNone (s2.nodeNetworks.filter
      (fun nn => nn.network_name == netName)) with
  | .error _ => handler
  | .ok (some _) => ⟨s2, [], none⟩
  | .ok none =>
    if fault (.networkIsolation netName req.node_name) then handler
    else
      ⟨{ s2 with nodeNetworks := s2.nodeNetworks ++
           [⟨req.node_name, netName⟩] },
        [.networkIsolation netName req.node_name], none⟩

/-- The Server row built at `server_router.py` lines 123-133.  The floating
IP value comes from the provider; its concrete value is irrelevant to every
claim and is rendered deterministically from the server name. -/
def mkServerRec (req : SReq) (netName : String) : ServerRec :=
  ⟨req.user_name, req.server_name, req.start_date, req.end_date,
   "fip-" ++ req.server_name, netName, req.node_name, req.flavor_name,
   req.image_name⟩

/-- Handler output: resulting committed database, provider-call log, HTTP
result. -/
structure Out where
  db : DB
  log : List Op
  res : Res
deriving DecidableEq, Repr

/-- `server_rent` (`server_router.py` lines 37-146): default the network
name, reject duplicate server names, run the flavor and network ensure
sections, then create the server, allocate the floating IP, insert the
Server row and commit.  The final except block rolls back and calls
`delete_server` only — but when `create_server` or `allocate_floating_ip`
raised, the local `floating_ip` is unbound and the handler itself dies with
`NameError` (crash). -/
def server_rent (cfg : Config) (fault : Op → Bool) (req : SReq) (db : DB) :
    Out :=
  let netName := req.network_name.getD cfg.default_internal_network
  match oneOrNone (db.servers.filter
      (fun s => s.server_name == req.server_name)) with
  | .error _ => ⟨db, [], .crash⟩
  | .ok (some _) => ⟨db, [], .dupName⟩
  | .ok none =>
    let f := flavorEnsure fault req db
    match f.err with
    | some r => ⟨db, f.log, r⟩
    | none =>
      let n := networkEnsureS fault netName req db f.s
      match n.err with
      | some r => ⟨db, f.log ++ n.log, r⟩
      | none =>
        if fault (.createServer req.server_name req.node_name) then
          ⟨db, f.log ++ n.log, .crash⟩
        else if fault (.allocateIp req.server_name req.node_name) then
          ⟨db, f.log ++ n.log ++
             [.createServer req.server_name req.node_name], .crash⟩
        else
          let log3 := f.log ++ n.log ++
            [.createServer req.server_name req.node_name,
             .allocateIp req.server_name req.node_name]
          if fault .commitRental then
            if fault (.deleteServer req.server_name req.node_name) then
              ⟨db, log3, .crash⟩
            else
              ⟨db, log3 ++ [.deleteServer req.server_name req.node_name],
                .backendErr⟩
          else
            ⟨{ n.s with servers := n.s.servers ++ [mkServerRec req netName] },
              log3, .ok⟩

/-- `ContainerCreateRequestDTO` fields read by `rental`.  `env` and `cmd`
are passed through to the provider only and are omitted. -/
structure CReq where
  user_name : String
  container_name : String
  start_date : Date
  end_date : Date
  image_name : String
  password : String
  network_name : Option String
  subnet_cidr : String
  node_name : String
deriving DecidableEq, Repr

/-- The Container row built at `container_router.py` lines 69-80: the stored
password is the SHA-256 hex digest of the supplied one (`hashlib.sha256`,
passed in abstractly as `hash`, the same function the return path applies).
The container IP and ports come from the provider object; their concrete
values are irrelevant to every claim and rendered deterministically. -/
def mkContainerRec (hash : String → String) (req : CReq) (netName : String) :
    ContainerRec :=
  ⟨req.user_name, req.container_name, req.start_date, req.end_date,
   req.image_name, hash req.password, "cip-" ++ req.container_name, "ports",
   netName, req.node_name⟩

/-- The `try` block of `rental` (`container_router.py` lines 58-97) over
session state `s2` and committed snapshot `committed`: create the
container, insert the Container row with the hashed password and commit.
The except block re-queries the link (by network name alone, via the faulty
`and`), calls `network_delete` when it exists and its network is not a
default, rolls back, calls `delete_container` and returns 500; a raise
inside the except itself (the re-query, or a failing provider cleanup
call) escapes as a crash. -/
def containerTry (fault : Op → Bool) (hash : String → String) (req : CReq)
    (netName : String) (committed s2 : DB) (log1 : List Op) : Out :=
  let handler : List Op → Out := fun logSoFar =>
    let afterNet : Option (List Op) :=
      match oneOrNone (s2.nodeNetworks.filter
          (fun nn => nn.network_name == netName)) with
      | .error _ => none
      | .ok none => some logSoFar
      | .ok (some _) =>
        match s2.networks.find? (fun n => n.name == netName) with
        | none => none
        | some net =>
          if net.is_default then some logSoFar
          else if fault (.networkDelete netName req.node_name) then none
          else some (logSoFar ++ [.networkDelete netName req.node_name])
    match afterNet with
    | none => ⟨committed, logSoFar, .crash⟩
    | some log2 =>
      if fault (.deleteContainer req.container_name req.node_name) then
        ⟨committed, log2, .crash⟩
      else
        ⟨committed, log2 ++
           [.deleteContainer req.container_name req.node_name],
          .backendErr⟩
  if fault (.createContainer req.container_name req.node_name) then
    handler log1
  else
    let log2 := log1 ++ [.createContainer req.container_name req.node_name]
    if fault .commitRental then handler log2
    else
      ⟨{ s2 with containers := s2.containers ++
           [mkContainerRec hash req netName] }, log2, .ok⟩

/-- `rental` (`container_router.py` lines 23-99): default to the external
network, reject duplicate container names, insert the Network row if absent,
check the NodeNetwork link (faulty `and`: filter by network name alone) and
run `network_isolation` plus the link insert when none was found — this part
is NOT inside any `try`, so a failure there crashes.  Then run the `try`
block (`containerTry`). -/
def rental (cfg : Config) (fault : Op → Bool) (hash : String → String)
    (req : CReq) (db : DB) : Out :=
  let netName := req.network_name.getD cfg.external_network
  match oneOrNone (db.containers.filter
      (fun c => c.container_name == req.container_name)) with
  | .error _ => ⟨db, [], .crash⟩
  | .ok (some _) => ⟨db, [], .dupName⟩
  | .ok none =>
    let s1 :=
      if (db.networks.filter (fun n => n.name == netName)).isEmpty then
        { db with networks := db.networks ++
            [⟨netName, req.subnet_cidr, false⟩] }
      else db
    match oneOrNone (s1.nodeNetworks.filter
        (fun nn => nn.network_name == netName)) with
    | .error _ => ⟨db, [], .crash⟩
    | .ok (some _) => containerTry fault hash req netName db s1 []
    | .ok none =>
      if fault (.networkIsolation netName req.node_name) then ⟨db, [], .crash⟩
      else
        containerTry fault hash req netName db
          { s1 with nodeNetworks := s1.nodeNetworks ++
              [⟨req.node_name, netName⟩] }
          [.networkIsolation netName req.node_name]

/-- The `for target_node_network in target_node_networks` loop of
`container_return` (`container_router.py` lines 137-142): `network_delete`
on each node carrying the network, staging the link deletion; on the first
provider failure the surrounding except catches, and the staged deletions
are never committed. -/
def deleteLinksLoop (fault : Op → Bool) :
    List NodeNetworkRec → (List Op × Bool)
  | [] => ([], true)
  | t :: ts =>
    if fault (.networkDelete t.network_name t.node_name) then ([], false)
    else
      let rest := deleteLinksLoop fault ts
      (Op.networkDelete t.network_name t.node_name :: rest.1, rest.2)

/-- `ContainerReturnRequestDTO` fields read by `container_return`. -/
structure CRet where
  container_name : String
  password : String
deriving DecidableEq, Repr

/-- `container_return` (`container_router.py` lines 102-151): fetch the
container (`one`, raising caught as 500), compare the SHA-256 digest of the
supplied password with the stored one (400 on mismatch, before any side
effect), delete the cloud container and the row, commit; then, when no
server or container references the network anymore and the network is not a
default, `network_delete` on every node carrying it, delete the links and
the Network row and commit again. -/
def container_return (fault : Op → Bool) (hash : String → String)
    (req : CRet) (db : DB) : Out :=
  match one (db.containers.filter
      (fun c => c.container_name == req.container_name)) with
  | .error _ => ⟨db, [], .backendErr⟩
  | .ok c =>
    if hash req.password != c.password then ⟨db, [], .badPassword⟩
    else if fault (.deleteContainer c.container_name c.node_name) then
      ⟨db, [], .backendErr⟩
    else
      let log1 := [Op.deleteContainer c.container_name c.node_name]
      let s1 := { db with containers := (db.containers.filter
                    (fun x => !(x.container_name == req.container_name))) }
      match one (s1.networks.filter (fun n => n.name == c.network_name)) with
      | .error _ => ⟨s1, log1, .backendErr⟩
      | .ok net =>
        let attached :=
          (s1.servers.filter
            (fun s => s.network_name == c.network_name)).length +
          (s1.containers.filter
            (fun x => x.network_name == c.network_name)).length
        if attached == 0 && !net.is_default then
          let targets := s1.nodeNetworks.filter
            (fun nn => nn.network_name == c.network_name)
          let loopOut := deleteLinksLoop fault targets
          if loopOut.2 then
            match one (s1.networks.filter
                (fun n => n.name == c.network_name)) with
            | .error _ => ⟨s1, log1 ++ loopOut.1, .backendErr⟩
            | .ok _ =>
              ⟨{ s1 with
                   nodeNetworks := s1.nodeNetworks.filter
                     (fun nn => !(nn.network_name == c.network_name)),
                   networks := s1.networks.filter
                     (fun n => !(n.name == c.network_name)) },
                log1 ++ loopOut.1, .ok⟩
          else ⟨s1, log1 ++ loopOut.1, .backendErr⟩
        else ⟨s1, log1, .ok⟩

/-- Cloud-side compute state visible to
`OpenStackController.delete_server` / `find_server`
(`openstack_controller.py`): the live instance names and the floating IPs
attached to them. -/
structure Cloud where
  servers : List String
  ips : List (String × String)
deriving DecidableEq, Repr

/-- `OpenStackController.delete_server` (`openstack_controller.py` lines
78-86): `find_server` the instance, list its floating IPs, delete them,
delete the instance.  When the instance is absent, `find_server` returns
`None` and the immediate `server.id` attribute access raises — modelled as
`error`. -/
def delete_server (cloud : Cloud) (server_name : String) :
    Except Unit Cloud :=
  match cloud.servers.find? (fun s => s == server_name) with
  | none => .error ()
  | some _ =>
    .ok { servers := cloud.servers.filter (fun s => !(s == server_name)),
          ips := cloud.ips.filter (fun p => !(p.1 == server_name)) }

/-- Output of `server_return`: committed database, cloud state, HTTP result. -/
structure ROut where
  db : DB
  cloud : Cloud
  res : Res
deriving DecidableEq, Repr

/-- `server_return` inner transaction (`server_router.py` lines 198-240,
after the collaborator-owned SSH validation): fetch the Server row (`one`),
`delete_server` on the cloud (its raise on an absent instance is caught as
500 with nothing deleted from inventory), delete the row and commit.  The
post-commit teardown block (lines 213-235) begins with
`find_server(server_name)` on the instance just deleted; under this
synchronous cloud model that lookup finds nothing, so the immediate
`.flavor` attribute access raises and the except returns 500 — the
flavor/network teardown below it is unreachable. -/
def server_return (db : DB) (cloud : Cloud) (server_name : String) : ROut :=
  match one (db.servers.filter (fun s => s.server_name == server_name)) with
  | .error _ => ⟨db, cloud, .backendErr⟩
  | .ok _ =>
    match delete_server cloud server_name with
    | .error _ => ⟨db, cloud, .backendErr⟩
    | .ok cloud1 =>
      let s1 := { db with servers := (db.servers.filter
                    (fun x => !(x.server_name == server_name))) }
      match cloud1.servers.find? (fun s => s == server_name) with
      | none => ⟨s1, cloud1, .backendErr⟩
      | some _ => ⟨s1, cloud1, .crash⟩

/-- End-date update applied by the extension endpoints
(`db_router.py` lines 50-52, `server_router.py` lines 171-173): only the
`end_date` attribute of the fetched row is assigned. -/
def renewUpd (server_name : String) (newEnd : Date) (s : ServerRec) :
    ServerRec :=
  if s.server_name == server_name then { s with end_date := newEnd } else s

/-- `server_renew` inner transaction (`db_router.py` lines 43-57 and the
identical `server_router.py` lines 164-179): fetch the Server row by name
with `one` — `NoResultFound` on an absent name is caught, the session rolls
back and a 500 error response is returned with nothing mutated — then set
its `end_date` and commit. -/
def server_renew (db : DB) (server_name : String) (newEnd : Date) :
    DB × Res :=
  match one (db.servers.filter (fun s => s.server_name == server_name)) with
  | .error _ => (db, .backendErr)
  | .ok _ =>
    ({ db with servers := db.servers.map (renewUpd server_name newEnd) },
     .ok)

/-- The expired-server loop of `delete_expired_data` (`scheduler.py` lines
25-28): stage the row deletion, then `delete_server` on the cloud.  There is
no per-record `try`; the first provider failure propagates, aborting the
sweep (returned flag `false`) with only the provider calls made so far. -/
def sweepServers (fault : Op → Bool) : List ServerRec → (List Op × Bool)
  | [] => ([], true)
  | s :: ss =>
    if fault (.deleteServer s.server_name s.node_name) then ([], false)
    else
      let rest := sweepServers fault ss
      (Op.deleteServer s.server_name s.node_name :: rest.1, rest.2)

/-- The expired-container loop of `delete_expired_data` (`scheduler.py`
lines 31-34), same shape as the server loop. -/
def sweepContainers (fault : Op → Bool) :
    List ContainerRec → (List Op × Bool)
  | [] => ([], true)
  | c :: cs =>
    if fault (.deleteContainer c.container_name c.node_name) then ([], false)
    else
      let rest := sweepContainers fault cs
      (Op.deleteContainer c.container_name c.node_name :: rest.1, rest.2)

/-- Output of one expiry sweep: committed database, provider calls made,
whether the sweep ran to commit. -/
structure SweepOut where
  db : DB
  log : List Op
  ok : Bool
deriving DecidableEq, Repr

/-- `delete_expired_data` (`scheduler.py` lines 16-36): select the Server
and Container rows with `end_date < today`, delete each (row staged, cloud
call) and commit once at the end.  An exception anywhere inside the
`session.begin()` block rolls everything back: no row deletion is committed
and the remaining records are not processed. -/
def delete_expired_data (fault : Op → Bool) (today : Date) (db : DB) :
    SweepOut :=
  let expS := db.servers.filter (fun s => Date.ltb s.end_date today)
  let expC := db.containers.filter (fun c => Date.ltb c.end_date today)
  let outS := sweepServers fault expS
  if outS.2 then
    let outC := sweepContainers fault expC
    if outC.2 then
      ⟨{ db with
           servers := db.servers.filter
             (fun s => !(Date.ltb s.end_date today)),
           containers := db.containers.filter
             (fun c => !(Date.ltb c.end_date today)) },
        outS.1 ++ outC.1, true⟩
    else ⟨db, outS.1 ++ outC.1, false⟩
  else ⟨db, outS.1, false⟩

/-! Concrete fixtures used by counterexamples and witnesses. -/

/-- Configuration fixture. -/
def cfg0 : Config := ⟨"default-int", "ext-net"⟩

/-- Empty inventory fixture. -/
def dbEmpty : DB := ⟨[], [], [], [], [], []⟩

/-- A stand-in digest function for witnesses: the claims hold for every
digest function, `hashlib.sha256(...).hexdigest()` included. -/
def hash0 : String → String := fun s => "H" ++ s

/-- Is this provider call a shared-infrastructure release? -/
def isReleaseOp : Op → Bool := fun op =>
  match op with
  | .networkDelete _ _ => true
  | .deleteFlavor _ _ => true
  | _ => false

/-- Server rental request fixture: fresh custom flavor and fresh network. -/
def reqC1 : SReq :=
  ⟨"alice", "srv1", ⟨2024, 1, 1⟩, ⟨2024, 2, 1⟩, some "net1", "10.0.0.0/24",
   "n1", "fl1", "ubuntu", 2, 4, 20⟩

/-- Fault oracle failing exactly the inventory commit (saga step 6). -/
def faultC1 : Op → Bool := fun o => decide (o = Op.commitRental)

/-- Inventory fixture for `c3_counterexample`: the network and flavor rows
exist, the flavor is linked on `n1` only, but the network is linked on two
nodes. -/
def dbC3 : DB :=
  ⟨[], [], [⟨"fl1", 2, 4, 20, false⟩], [⟨"net1", "10.0.0.0/24", false⟩],
   [⟨"fl1", "n1"⟩], [⟨"n1", "net1"⟩, ⟨"n2", "net1"⟩]⟩

/-- Inventory fixture for `c3_witness`: exactly one link per shared
resource, both on node `n1`. -/
def dbC3w : DB :=
  ⟨[], [], [], [], [⟨"fl1", "n1"⟩], [⟨"n1", "net1"⟩]⟩

/-- Inventory fixture for `c4_witness`: one container on the default
external network, which no other rental references. -/
def dbC4w : DB :=
  ⟨[],
   [⟨"bob", "c1", ⟨2024, 1, 1⟩, ⟨2024, 2, 1⟩, "alpine", "Hpw", "cip", "p",
     "ext-net", "n1"⟩],
   [], [⟨"ext-net", "", true⟩], [], [⟨"n1", "ext-net"⟩]⟩

/-- Inventory fixture for `c4_counterexample`: a default-flagged flavor
whose link rows exist on two nodes. -/
def dbC4 : DB :=
  ⟨[], [], [⟨"fd", 2, 4, 20, true⟩], [], [⟨"fd", "a"⟩, ⟨"fd", "b"⟩], []⟩

/-- Rental request for the default flavor `fd`. -/
def reqC4 : SReq :=
  ⟨"alice", "srv1", ⟨2024, 1, 1⟩, ⟨2024, 2, 1⟩, some "net1", "10.0.0.0/24",
   "n1", "fd", "ubuntu", 2, 4, 20⟩

/-- Inventory fixture for C5: one expired server together with the flavor
and network rows and links it references. -/
def dbC5 : DB :=
  ⟨[⟨"a", "s1", ⟨2023, 12, 1⟩, ⟨2024, 1, 1⟩, "f", "net1", "n1", "fl1",
     "img"⟩],
   [], [⟨"fl1", 2, 4, 20, false⟩], [⟨"net1", "10.0.0.0/24", false⟩],
   [⟨"fl1", "n1"⟩], [⟨"n1", "net1"⟩]⟩

/-- Sweep date fixture: the day after `dbC5`'s record expired. -/
def dateC5 : Date := ⟨2024, 1, 2⟩

/-- Inventory fixture for C6: two expired servers. -/
def dbC6 : DB :=
  ⟨[⟨"a", "s1", ⟨2023, 12, 1⟩, ⟨2024, 1, 1⟩, "f", "net1", "n1", "fl1",
     "img"⟩,
    ⟨"a", "s2", ⟨2023, 12, 1⟩, ⟨2024, 1, 1⟩, "f", "net1", "n1", "fl1",
     "img"⟩],
   [], [], [], [], []⟩

/-- Fault oracle failing exactly the cloud deletion of server `s1`. -/
def faultC6 : Op → Bool := fun o => decide (o = Op.deleteServer "s1" "n1")

/-- Container rental request fixture: fresh network `net1` on node `n1`. -/
def creqC10 : CReq :=
  ⟨"bob", "c1", ⟨2024, 1, 1⟩, ⟨2024, 2, 1⟩, "alpine", "pw", some "net1",
   "10.0.0.0/24", "n1"⟩

/-- The inventory produced by a fault-free `rental cfg0 _ hash0 creqC10`
on the empty inventory. -/
def dbC10 : DB :=
  ⟨[],
   [⟨"bob", "c1", ⟨2024, 1, 1⟩, ⟨2024, 2, 1⟩, "alpine", "Hpw", "cip-c1",
     "ports", "net1", "n1"⟩],
   [], [⟨"net1", "10.0.0.0/24", false⟩], [], [⟨"n1", "net1"⟩]⟩

/-- The inventory produced by a fault-free `server_rent cfg0 _ reqC1` on
the empty inventory. -/
def db1C2 : DB :=
  ⟨[⟨"alice", "srv1", ⟨2024, 1, 1⟩, ⟨2024, 2, 1⟩, "fip-srv1", "net1", "n1",
     "fl1", "ubuntu"⟩],
   [], [⟨"fl1", 2, 4, 20, false⟩], [⟨"net1", "10.0.0.0/24", false⟩], [],
   [⟨"n1", "net1"⟩]⟩

/-- Fault oracle failing exactly the container creation (saga step 4). -/
def faultC1w : Op → Bool :=
  fun o => decide (o = Op.createContainer "c1" "n1")

/-- Inventory fixture for C8: one rented server `s1`. -/
def dbC8 : DB :=
  ⟨[⟨"a", "s1", ⟨2023, 12, 1⟩, ⟨2024, 6, 1⟩, "f", "net1", "n1", "fl1",
     "img"⟩],
   [], [], [], [], []⟩

/-- Cloud fixture for C8: the instance is already absent. -/
def cloudC8 : Cloud := ⟨[], []⟩

/-- Inventory fixture for C9: one rented server `s1`. -/
def dbC9 : DB :=
  ⟨[⟨"a", "s1", ⟨2023, 1, 1⟩, ⟨2024, 1, 1⟩, "f", "net", "n1", "fl",
     "img"⟩],
   [], [], [], [], []⟩

/-! Helper lemmas shared between the claim theorems. -/

theorem find?_of_filter_singleton {α : Type} (p : α → Bool) :
    ∀ (l : List α) (a : α), l.filter p = [a] → l.find? p = some a := by
  intro l
  induction l with
  | nil => intro a h; simp at h
  | cons x xs ih =>
    intro a h
    by_cases hp : p x = true
    · rw [List.filter_cons_of_pos hp] at h
      have hx := (List.cons_eq_cons.mp h).1
      subst hx
      simp [List.find?, hp]
    · rw [List.filter_cons_of_neg hp] at h
      have hpf : p x = false := by simpa using hp
      simp only [List.find?, hpf]
      exact ih a h

theorem mem_of_filter_singleton {α : Type} (p : α → Bool) (l : List α)
    (a : α) (h : l.filter p = [a]) : a ∈ l :=
  List.mem_of_mem_filter (h ▸ List.mem_singleton_self a)

theorem sweepServers_noFaults (l : List ServerRec) :
    sweepServers noFaults l =
      (l.map (fun s => Op.deleteServer s.server_name s.node_name), true) := by
  induction l with
  | nil => rfl
  | cons s ss ih => simp [sweepServers, noFaults, ih]

theorem sweepContainers_noFaults (l : List ContainerRec) :
    sweepContainers noFaults l =
      (l.map (fun c => Op.deleteContainer c.container_name c.node_name),
       true) := by
  induction l with
  | nil => rfl
  | cons c cs ih => simp [sweepContainers, noFaults, ih]

theorem sweepServers_no_release (fault : Op → Bool) :
    ∀ l : List ServerRec,
      (sweepServers fault l).1.filter isReleaseOp = [] := by
  intro l
  induction l with
  | nil => rfl
  | cons s ss ih =>
    simp only [sweepServers]
    split
    · rfl
    · simpa [isReleaseOp] using ih

theorem sweepContainers_no_release (fault : Op → Bool) :
    ∀ l : List ContainerRec,
      (sweepContainers fault l).1.filter isReleaseOp = [] := by
  intro l
  induction l with
  | nil => rfl
  | cons c cs ih =>
    simp only [sweepContainers]
    split
    · rfl
    · simpa [isReleaseOp] using ih

theorem sweep_infra_untouched (fault : Op → Bool) (today : Date) (db : DB) :
    (delete_expired_data fault today db).db.networks = db.networks ∧
    (delete_expired_data fault today db).db.nodeNetworks = db.nodeNetworks ∧
    (delete_expired_data fault today db).db.flavors = db.flavors ∧
    (delete_expired_data fault today db).db.nodeFlavors = db.nodeFlavors := by
  simp only [delete_expired_data]
  split
  · split <;> exact ⟨rfl, rfl, rfl, rfl⟩
  · exact ⟨rfl, rfl, rfl, rfl⟩

theorem sweep_log_no_release (fault : Op → Bool) (today : Date) (db : DB) :
    (delete_expired_data fault today db).log.filter isReleaseOp = [] := by
  simp only [delete_expired_data]
  split
  · split <;>
      simp [List.filter_append, sweepServers_no_release,
        sweepContainers_no_release]
  · simp [sweepServers_no_release]

theorem flavorEnsure_s_servers (fault : Op → Bool) (req : SReq) (db : DB) :
    (flavorEnsure fault req db).s.servers = db.servers := by
  simp only [flavorEnsure]
  split <;> (try split) <;> (try split) <;> rfl

theorem flavorEnsure_err_ne_ok (fault : Op → Bool) (req : SReq) (db : DB) :
    (flavorEnsure fault req db).err ≠ some Res.ok := by
  simp only [flavorEnsure]
  split <;> (try split) <;> (try split) <;> simp

theorem networkEnsureS_err_ne_ok (fault : Op → Bool) (netName : String)
    (req : SReq) (committed s : DB) :
    (networkEnsureS fault netName req committed s).err ≠ some Res.ok := by
  simp only [networkEnsureS]
  split <;> (try split) <;> (try split) <;> (try split) <;> (try split) <;>
    (try split) <;> simp

theorem networkEnsureS_s_servers (fault : Op → Bool) (netName : String)
    (req : SReq) (committed s : DB) :
    (networkEnsureS fault netName req committed s).s.servers = s.servers ∨
    (networkEnsureS fault netName req committed s).s = committed := by
  simp only [networkEnsureS]
  split <;> (try split) <;> (try split) <;> (try split) <;> (try split) <;>
    (try split) <;> simp

theorem containerTry_ok_containers (fault : Op → Bool)
    (hash : String → String) (req : CReq) (netName : String)
    (committed s2 : DB) (log1 : List Op) (db1 : DB) (logx : List Op)
    (h : containerTry fault hash req netName committed s2 log1 =
      ⟨db1, logx, Res.ok⟩) :
    db1.containers = s2.containers ++ [mkContainerRec hash req netName] := by
  simp only [containerTry] at h
  split at h
  · split at h
    · exact absurd h (by simp)
    · split at h <;> exact absurd h (by simp)
  · split at h
    · split at h
      · exact absurd h (by simp)
      · split at h <;> exact absurd h (by simp)
    · simp only [Out.mk.injEq] at h
      rw [← h.1]

theorem containerTry_not_ok_db (fault : Op → Bool) (hash : String → String)
    (req : CReq) (netName : String) (committed s2 : DB) (log1 : List Op) :
    (containerTry fault hash req netName committed s2 log1).res ≠ Res.ok →
    (containerTry fault hash req netName committed s2 log1).db =
      committed := by
  simp only [containerTry]
  split <;> (try split) <;> (try split) <;> (try split) <;>
    first
      | (intro h; exact absurd rfl h)
      | (intro _; rfl)

theorem server_rent_ok_servers (cfg : Config) (fault : Op → Bool)
    (req : SReq) (db db1 : DB) (log1 : List Op)
    (h : server_rent cfg fault req db = ⟨db1, log1, Res.ok⟩) :
    db1.servers = db.servers ++
      [mkServerRec req
        (req.network_name.getD cfg.default_internal_network)] := by
  simp only [server_rent] at h
  split at h
  · exact absurd h (by simp)
  · exact absurd h (by simp)
  · split at h
    · rename_i r heq
      simp only [Out.mk.injEq] at h
      obtain ⟨-, -, hres⟩ := h
      subst hres
      exact absurd heq (flavorEnsure_err_ne_ok fault req db)
    · split at h
      · rename_i r heq
        simp only [Out.mk.injEq] at h
        obtain ⟨-, -, hres⟩ := h
        subst hres
        exact absurd heq (networkEnsureS_err_ne_ok fault
          (req.network_name.getD cfg.default_internal_network) req db
          (flavorEnsure fault req db).s)
      · split at h
        · exact absurd h (by simp)
        · split at h
          · exact absurd h (by simp)
          · split at h
            · split at h <;> exact absurd h (by simp)
            · simp only [Out.mk.injEq] at h
              obtain ⟨hdb, -, -⟩ := h
              subst hdb
              rcases networkEnsureS_s_servers fault
                  (req.network_name.getD cfg.default_internal_network) req
                  db (flavorEnsure fault req db).s with hns | hns
              · simp [hns, flavorEnsure_s_servers]
              · simp [hns, flavorEnsure_s_servers]

theorem rental_ok_containers (cfg : Config) (fault : Op → Bool)
    (hash : String → String) (req : CReq) (db db1 : DB) (logx : List Op)
    (h : rental cfg fault hash req db = ⟨db1, logx, Res.ok⟩) :
    db1.containers = db.containers ++
      [mkContainerRec hash req
        (req.network_name.getD cfg.external_network)] := by
  simp only [rental] at h
  split at h
  · exact absurd h (by simp)
  · exact absurd h (by simp)
  · split at h
    · exact absurd h (by simp)
    · rw [containerTry_ok_containers _ _ _ _ _ _ _ _ _ h]
      congr 1
      split <;> rfl
    · split at h
      · exact absurd h (by simp)
      · rw [containerTry_ok_containers _ _ _ _ _ _ _ _ _ h]
        congr 1
        split <;> rfl

/-! Claim theorems. -/

/-- C7: the expiry sweep reclaims exactly the RentalRecords whose
`end_date` is strictly before the sweep's "now": in a fault-free sweep the
surviving rows are exactly the non-expired ones, the provider log deletes
exactly the expired instances, and on the claim's concrete dates
2024-01-01 is before now = 2024-01-02 (reclaimed) while 2024-06-01 is not
(left untouched). -/
theorem c7_sweep_reclaims_exactly_expired (today : Date) (db : DB) :
    (delete_expired_data noFaults today db).ok = true ∧
    (delete_expired_data noFaults today db).db.servers =
      db.servers.filter (fun s => !(Date.ltb s.end_date today)) ∧
    (delete_expired_data noFaults today db).db.containers =
      db.containers.filter (fun c => !(Date.ltb c.end_date today)) ∧
    (delete_expired_data noFaults today db).log =
      (db.servers.filter (fun s => Date.ltb s.end_date today)).map
        (fun s => Op.deleteServer s.server_name s.node_name) ++
      (db.containers.filter (fun c => Date.ltb c.end_date today)).map
        (fun c => Op.deleteContainer c.container_name c.node_name) ∧
    Date.ltb ⟨2024, 1, 1⟩ ⟨2024, 1, 2⟩ = true ∧
    Date.ltb ⟨2024, 6, 1⟩ ⟨2024, 1, 2⟩ = false := by
  refine ⟨?_, ?_, ?_, ?_, by decide, by decide⟩ <;>
    simp [delete_expired_data, sweepServers_noFaults,
      sweepContainers_noFaults]

/-- C6 counterexample: with two expired servers and a provider failure on
the first one's cloud deletion, the sweep tears nothing down — the second
expired record is not deleted from the cloud (no `deleteServer s2` in the
log) nor from inventory, contradicting "does not block teardown of the
remaining expired records". -/
theorem c6_counterexample :
    (delete_expired_data faultC6 ⟨2024, 1, 2⟩ dbC6).ok = false ∧
    (delete_expired_data faultC6 ⟨2024, 1, 2⟩ dbC6).db = dbC6 ∧
    Op.deleteServer "s2" "n1" ∉ (delete_expired_data faultC6 ⟨2024, 1, 2⟩
      dbC6).log ∧
    (∃ s ∈ dbC6.servers, s.server_name = "s2" ∧
      Date.ltb s.end_date ⟨2024, 1, 2⟩ = true) := by decide

/-- C6 as amended: a failure deleting one record's cloud resource aborts
the whole sweep — the single transaction rolls back, so no RentalRecord
(the failed one included) is removed and every expired record remains a
candidate for the next scheduled sweep. -/
theorem c6_failed_sweep_rolls_back (fault : Op → Bool) (today : Date)
    (db : DB) (h : (delete_expired_data fault today db).ok = false) :
    (delete_expired_data fault today db).db = db := by
  simp only [delete_expired_data] at h ⊢
  split at h
  · split at h
    · simp at h
    · split
      · simp_all
      · rfl
  · split
    · simp_all
    · rfl

/-- Closed witness for `c6_failed_sweep_rolls_back` at the C6 fixture. -/
theorem c6_witness :
    (delete_expired_data faultC6 ⟨2024, 1, 2⟩ dbC6).ok = false ∧
    (delete_expired_data faultC6 ⟨2024, 1, 2⟩ dbC6).db = dbC6 :=
  ⟨by decide, c6_failed_sweep_rolls_back faultC6 ⟨2024, 1, 2⟩ dbC6
    (by decide)⟩

/-- C5 counterexample: a fault-free sweep over an expired server that
references a (now otherwise unreferenced) network and flavor deletes the
cloud instance and the row but issues no `release`: the log holds only the
instance deletion and every InfrastructureRecord and link survives,
contradicting "then calls release on that record's network and compute
profile". -/
theorem c5_counterexample :
    (delete_expired_data noFaults dateC5 dbC5).ok = true ∧
    (delete_expired_data noFaults dateC5 dbC5).db.servers = [] ∧
    (delete_expired_data noFaults dateC5 dbC5).log =
      [Op.deleteServer "s1" "n1"] ∧
    (delete_expired_data noFaults dateC5 dbC5).db.networks =
      dbC5.networks ∧
    (delete_expired_data noFaults dateC5 dbC5).db.nodeNetworks =
      dbC5.nodeNetworks ∧
    (delete_expired_data noFaults dateC5 dbC5).db.flavors = dbC5.flavors ∧
    (delete_expired_data noFaults dateC5 dbC5).db.nodeFlavors =
      dbC5.nodeFlavors := by decide

/-- C5 as amended: each sweep deletes the cloud instance and the
RentalRecord of every expired record (fault-free case), but never invokes
`release`: no sweep log ever contains a network or flavor deletion, and the
infrastructure tables are untouched — shared infrastructure left
unreferenced by the sweep is NOT reclaimed. -/
theorem c5_sweep_never_releases (fault : Op → Bool) (today : Date)
    (db : DB) :
    (delete_expired_data fault today db).log.filter isReleaseOp = [] ∧
    (delete_expired_data fault today db).db.networks = db.networks ∧
    (delete_expired_data fault today db).db.nodeNetworks =
      db.nodeNetworks ∧
    (delete_expired_data fault today db).db.flavors = db.flavors ∧
    (delete_expired_data fault today db).db.nodeFlavors = db.nodeFlavors ∧
    (delete_expired_data noFaults today db).db.servers =
      db.servers.filter (fun s => !(Date.ltb s.end_date today)) ∧
    (delete_expired_data noFaults today db).db.containers =
      db.containers.filter (fun c => !(Date.ltb c.end_date today)) := by
  refine ⟨sweep_log_no_release fault today db,
    (sweep_infra_untouched fault today db).1,
    (sweep_infra_untouched fault today db).2.1,
    (sweep_infra_untouched fault today db).2.2.1,
    (sweep_infra_untouched fault today db).2.2.2, ?_, ?_⟩ <;>
    simp [delete_expired_data, sweepServers_noFaults,
      sweepContainers_noFaults]

/-- C8 counterexample: reclaiming server `s1` while its cloud instance is
already absent raises inside `delete_server` (`find_server` yields no
result and the attribute access fails), the endpoint answers 500, and the
RentalRecord is NOT deleted — the inventory-side deletion does not
complete, contradicting the claim. -/
theorem c8_counterexample :
    (∃ s ∈ dbC8.servers, s.server_name = "s1") ∧
    delete_server cloudC8 "s1" = Except.error () ∧
    server_return dbC8 cloudC8 "s1" = ⟨dbC8, cloudC8, Res.backendErr⟩ ∧
    (∃ s ∈ (server_return dbC8 cloudC8 "s1").db.servers,
      s.server_name = "s1") := by
  exact ⟨by decide, rfl, rfl, by decide⟩

/-- C8 as amended: when the cloud instance is absent, the provider's
`delete_server` raises (the "not found" lookup result is not tolerated),
the return endpoint surfaces a 500 error, and the RentalRecord survives —
inventory and cloud state are both left unchanged. -/
theorem c8_absent_instance_raises (db : DB) (cloud : Cloud) (name : String)
    (h : cloud.servers.find? (fun s => s == name) = none) :
    delete_server cloud name = Except.error () ∧
    server_return db cloud name = ⟨db, cloud, Res.backendErr⟩ := by
  have hd : delete_server cloud name = Except.error () := by
    simp only [delete_server, h]
  refine ⟨hd, ?_⟩
  simp only [server_return]
  split
  · rfl
  · simp only [hd]

/-- Closed witness for `c8_absent_instance_raises` at the C8 fixture. -/
theorem c8_witness :
    delete_server cloudC8 "s1" = Except.error () ∧
    server_return dbC8 cloudC8 "s1" = ⟨dbC8, cloudC8, Res.backendErr⟩ :=
  c8_absent_instance_raises dbC8 cloudC8 "s1" (by decide)

/-- C9: a successful `extend` changes only the expiry date of the matching
RentalRecord — every other field of that record, every other server row and
every other table are unchanged — and when no record carries the name the
call fails (`NoResultFound`, surfaced as the endpoint's error response) and
mutates nothing. -/
theorem c9_extend_frame (db : DB) (n : String) (d : Date) :
    (db.servers.filter (fun s => s.server_name == n) = [] →
      server_renew db n d = (db, Res.backendErr)) ∧
    (∀ s0, db.servers.filter (fun s => s.server_name == n) = [s0] →
      (server_renew db n d).2 = Res.ok ∧
      (server_renew db n d).1.servers = db.servers.map (renewUpd n d) ∧
      (server_renew db n d).1.containers = db.containers ∧
      (server_renew db n d).1.flavors = db.flavors ∧
      (server_renew db n d).1.networks = db.networks ∧
      (server_renew db n d).1.nodeFlavors = db.nodeFlavors ∧
      (server_renew db n d).1.nodeNetworks = db.nodeNetworks) ∧
    (∀ s : ServerRec,
      ((s.server_name == n) = false → renewUpd n d s = s) ∧
      ((s.server_name == n) = true →
        (renewUpd n d s).user_name = s.user_name ∧
        (renewUpd n d s).server_name = s.server_name ∧
        (renewUpd n d s).start_date = s.start_date ∧
        (renewUpd n d s).floating_ip = s.floating_ip ∧
        (renewUpd n d s).network_name = s.network_name ∧
        (renewUpd n d s).node_name = s.node_name ∧
        (renewUpd n d s).flavor_name = s.flavor_name ∧
        (renewUpd n d s).image_name = s.image_name ∧
        (renewUpd n d s).end_date = d)) := by
  refine ⟨?_, ?_, ?_⟩
  · intro h
    simp [server_renew, h, one]
  · intro s0 h
    simp [server_renew, h, one]
  · intro s
    constructor
    · intro h; simp [renewUpd, h]
    · intro h; simp [renewUpd, h]

/-- C3 counterexample: the NodeInfrastructureLink `(n1, net1)` exists, yet
`ensure` does not return `created=false` with no further action — because
the faulty conjunction matches links by network name alone, the second link
`(n2, net1)` makes `one_or_none` raise, and the failure handler then issues
a cloud-side `network_delete` for the still-referenced network. -/
theorem c3_counterexample :
    NodeNetworkRec.mk "n1" "net1" ∈ dbC3.nodeNetworks ∧
    (networkEnsureS noFaults "net1" reqC1 dbC3 dbC3).log =
      [Op.networkDelete "net1" "n1"] ∧
    (networkEnsureS noFaults "net1" reqC1 dbC3 dbC3).err =
      some Res.networkErr ∧
    Op.networkDelete "net1" "n1" ∈
      (server_rent cfg0 noFaults reqC1 dbC3).log := by decide

/-- C3 as amended: when the NodeInfrastructureLink for
`(node, logical_name)` exists AND is the only link recorded for that
logical name, `ensure` returns `created=false` and performs no further
action — no cloud-provider call and no link insertion — for both the
network and the flavor manager.  (The existence check matches on the
logical name alone because the Python `and` of two SQLAlchemy expressions
keeps only its first operand, so with links on several nodes the lookup
raises instead.) -/
theorem c3_ensure_sole_link_no_action :
    (∀ (fault : Op → Bool) (netName : String) (req : SReq)
        (committed s : DB),
      s.nodeNetworks.filter (fun nn => nn.network_name == netName) =
        [⟨req.node_name, netName⟩] →
      (networkEnsureS fault netName req committed s).log = [] ∧
      (networkEnsureS fault netName req committed s).err = none ∧
      (networkEnsureS fault netName req committed s).s.nodeNetworks =
        s.nodeNetworks) ∧
    (∀ (fault : Op → Bool) (req : SReq) (db : DB),
      db.nodeFlavors.filter (fun nf => nf.flavor_name == req.flavor_name) =
        [⟨req.flavor_name, req.node_name⟩] →
      (flavorEnsure fault req db).log = [] ∧
      (flavorEnsure fault req db).err = none ∧
      (flavorEnsure fault req db).s.nodeFlavors = db.nodeFlavors) := by
  constructor
  · intro fault netName req committed s h
    by_cases hemp :
        (s.networks.filter (fun n => n.name == netName)).isEmpty = true
    · simp [networkEnsureS, hemp, h, oneOrNone]
    · simp [networkEnsureS, hemp, h, oneOrNone]
  · intro fault req db h
    by_cases hemp :
        (db.flavors.filter (fun f => f.name == req.flavor_name)).isEmpty
          = true
    · simp [flavorEnsure, hemp, h, oneOrNone]
    · simp [flavorEnsure, hemp, h, oneOrNone]

/-- Closed witness for `c3_ensure_sole_link_no_action` on an inventory
with exactly one link per shared resource, matching the request's node. -/
theorem c3_witness :
    (networkEnsureS noFaults "net1" reqC1 dbC3w dbC3w).log = [] ∧
    (networkEnsureS noFaults "net1" reqC1 dbC3w dbC3w).err = none ∧
    (networkEnsureS noFaults "net1" reqC1 dbC3w dbC3w).s.nodeNetworks =
      dbC3w.nodeNetworks :=
  c3_ensure_sole_link_no_action.1 noFaults "net1" reqC1 dbC3w dbC3w
    (by decide)

/-- C4 counterexample: flavor `fd` is flagged as a system default, yet the
provision flavor rollback deletes its cloud-side resource: the link lookup
(matching by flavor name alone) raises on the two link rows, and the
except block calls `delete_flavor` without consulting the default flag. -/
theorem c4_counterexample :
    (∃ f ∈ dbC4.flavors, f.name = "fd" ∧ f.is_default = true) ∧
    (flavorEnsure noFaults reqC4 dbC4).log = [Op.deleteFlavor "fd" "n1"] ∧
    (flavorEnsure noFaults reqC4 dbC4).err = some Res.flavorErr ∧
    Op.deleteFlavor "fd" "n1" ∈
      (server_rent cfg0 noFaults reqC4 dbC4).log := by decide

/-- C4 as amended: during container return, during the provision network
rollback, and during reaper teardown, an InfrastructureRecord flagged as a
system default never has its cloud-side resource or its record deleted,
even at reference count zero.  (The provision flavor rollback, by
contrast, calls cloud-side flavor deletion unconditionally — the
counterexample — and the server-return teardown consults config name lists
rather than the flag.) -/
theorem c4_default_infra_protected :
    (∀ (fault : Op → Bool) (hash : String → String) (req : CRet) (db : DB)
        (c : ContainerRec) (net : NetworkRec),
      db.containers.filter
        (fun x => x.container_name == req.container_name) = [c] →
      db.networks.filter (fun n => n.name == c.network_name) = [net] →
      net.is_default = true →
      (∀ nd, Op.networkDelete c.network_name nd ∉
        (container_return fault hash req db).log) ∧
      net ∈ (container_return fault hash req db).db.networks) ∧
    (∀ (fault : Op → Bool) (today : Date) (db : DB),
      (delete_expired_data fault today db).log.filter isReleaseOp = [] ∧
      (delete_expired_data fault today db).db.networks = db.networks ∧
      (delete_expired_data fault today db).db.flavors = db.flavors) ∧
    (∀ (fault : Op → Bool) (netName : String) (req : SReq)
        (committed s : DB) (net : NetworkRec),
      s.networks.filter (fun n => n.name == netName) = [net] →
      net.is_default = true →
      ∀ nd, Op.networkDelete netName nd ∉
        (networkEnsureS fault netName req committed s).log) := by
  refine ⟨?_, ?_, ?_⟩
  · intro fault hash req db c net h1 h2 hd
    have hmem : net ∈ db.networks := mem_of_filter_singleton _ _ _ h2
    simp only [container_return, h1, one]
    split
    · exact ⟨fun nd => by simp, hmem⟩
    · split
      · exact ⟨fun nd => by simp, hmem⟩
      · simp only [h2, one, hd]
        refine ⟨fun nd => by simp, ?_⟩
        simpa using hmem
  · intro fault today db
    exact ⟨sweep_log_no_release fault today db,
      (sweep_infra_untouched fault today db).1,
      (sweep_infra_untouched fault today db).2.2.1⟩
  · intro fault netName req committed s net h hd nd
    have hne : (s.networks.filter (fun n => n.name == netName)).isEmpty
        = false := by rw [h]; rfl
    have hf := find?_of_filter_singleton
      (fun n : NetworkRec => n.name == netName) s.networks net h
    simp only [networkEnsureS, hne, Bool.false_eq_true, if_false, hf, hd]
    split <;> (try split) <;> (try split) <;> simp_all

/-- Closed witness for `c4_default_infra_protected`: returning the last
container on the default external network leaves the network record and
its cloud resource alone. -/
theorem c4_witness :
    (∀ nd, Op.networkDelete "ext-net" nd ∉
      (container_return noFaults hash0 ⟨"c1", "pw"⟩ dbC4w).log) ∧
    NetworkRec.mk "ext-net" "" true ∈
      (container_return noFaults hash0 ⟨"c1", "pw"⟩ dbC4w).db.networks :=
  (c4_default_infra_protected.1 noFaults hash0 ⟨"c1", "pw"⟩ dbC4w
    ⟨"bob", "c1", ⟨2024, 1, 1⟩, ⟨2024, 2, 1⟩, "alpine", "Hpw", "cip", "p",
     "ext-net", "n1"⟩
    ⟨"ext-net", "", true⟩ (by decide) (by decide) (by decide))

/-- C1 counterexample: a server provision that fails at the inventory
insert (commit) after both shared-infrastructure ensures reported
`created=true` leaves the inventory unchanged and deletes the compute
instance, but never invokes `release`: the log holds `createFlavor` and
`networkIsolation` yet no `deleteFlavor` and no `networkDelete`, so the
cloud-side flavor and network leak. -/
theorem c1_counterexample :
    (server_rent cfg0 faultC1 reqC1 dbEmpty).log =
      [Op.createFlavor "fl1" "n1", Op.networkIsolation "net1" "n1",
       Op.createServer "srv1" "n1", Op.allocateIp "srv1" "n1",
       Op.deleteServer "srv1" "n1"] ∧
    (server_rent cfg0 faultC1 reqC1 dbEmpty).res = Res.backendErr ∧
    (server_rent cfg0 faultC1 reqC1 dbEmpty).db = dbEmpty := by decide

/-- C1 as amended: every provision call that does not succeed leaves the
inventory unchanged (no RentalRecord exists afterward) — for servers and
containers alike, on any failing step.  For container provisioning that
fails at container creation, a network newly inserted by the call (ensure
reported `created=true`) has `release` (`network_delete`) invoked before
the error returns; for server provisioning, the flavor and network
acquired in steps 2-3 are NOT released (the counterexample), only the
compute instance is deleted. -/
theorem c1_failure_rollback :
    (∀ (cfg : Config) (fault : Op → Bool) (req : SReq) (db : DB),
      (server_rent cfg fault req db).res ≠ Res.ok →
      (server_rent cfg fault req db).db = db) ∧
    (∀ (cfg : Config) (fault : Op → Bool) (hash : String → String)
        (req : CReq) (db : DB),
      (rental cfg fault hash req db).res ≠ Res.ok →
      (rental cfg fault hash req db).db = db) ∧
    (∀ (cfg : Config) (fault : Op → Bool) (hash : String → String)
        (req : CReq) (db : DB) (netName : String),
      netName = req.network_name.getD cfg.external_network →
      fault (Op.createContainer req.container_name req.node_name) = true →
      fault (Op.networkIsolation netName req.node_name) = false →
      fault (Op.networkDelete netName req.node_name) = false →
      fault (Op.deleteContainer req.container_name req.node_name) = false →
      db.containers.filter
        (fun c => c.container_name == req.container_name) = [] →
      db.networks.filter (fun n => n.name == netName) = [] →
      db.nodeNetworks.filter (fun nn => nn.network_name == netName) = [] →
      rental cfg fault hash req db =
        ⟨db, [Op.networkIsolation netName req.node_name,
              Op.networkDelete netName req.node_name,
              Op.deleteContainer req.container_name req.node_name],
          Res.backendErr⟩) := by
  refine ⟨?_, ?_, ?_⟩
  · intro cfg fault req db
    simp only [server_rent]
    split <;> (try split) <;> (try split) <;> (try split) <;>
      (try split) <;> (try split) <;> (try split) <;>
      first
        | (intro h; exact absurd rfl h)
        | (intro _; rfl)
  · intro cfg fault hash req db
    simp only [rental]
    split <;> (try split) <;> (try split) <;>
      first
        | (intro h; exact containerTry_not_ok_db _ _ _ _ _ _ _ h)
        | (intro _; rfl)
  · intro cfg fault hash req db netName hnet hf1 hf2 hf3 hf4 hdup hnw hlink
    subst hnet
    have hfn : db.networks.find?
        (fun n => n.name == req.network_name.getD cfg.external_network) =
        none := by
      rw [List.find?_eq_none]
      intro x hx
      exact List.filter_eq_nil_iff.mp hnw x hx
    simp [rental, containerTry, oneOrNone, hdup, hnw, hlink, hfn, hf1, hf2,
      hf3, hf4]

/-- Closed witness for `c1_failure_rollback`: a server commit failure and a
container creation failure, each on the empty inventory. -/
theorem c1_witness :
    (server_rent cfg0 faultC1 reqC1 dbEmpty).db = dbEmpty ∧
    (rental cfg0 faultC1w hash0 creqC10 dbEmpty).db = dbEmpty ∧
    rental cfg0 faultC1w hash0 creqC10 dbEmpty =
      ⟨dbEmpty, [Op.networkIsolation "net1" "n1",
                 Op.networkDelete "net1" "n1",
                 Op.deleteContainer "c1" "n1"], Res.backendErr⟩ :=
  ⟨c1_failure_rollback.1 cfg0 faultC1 reqC1 dbEmpty (by decide),
   c1_failure_rollback.2.1 cfg0 faultC1w hash0 creqC10 dbEmpty (by decide),
   c1_failure_rollback.2.2 cfg0 faultC1w hash0 creqC10 dbEmpty "net1"
     (by decide) (by decide) (by decide) (by decide) (by decide)
     (by decide) (by decide) (by decide)⟩

/-- C2: provisioning the same resource name twice (server or container)
yields one success and one DuplicateName rejection: after the successful
first call exactly one record carries the name, and the second call — under
ANY fault oracle — returns the duplicate-name error with the inventory
unchanged and an empty provider log, i.e. it is rejected before any
cloud-provider call. -/
theorem c2_duplicate_rejection :
    (∀ (cfg : Config) (f2 : Op → Bool) (req : SReq) (db db1 : DB)
        (log1 : List Op),
      db.servers.filter (fun s => s.server_name == req.server_name) = [] →
      server_rent cfg noFaults req db = ⟨db1, log1, Res.ok⟩ →
      (db1.servers.filter
        (fun s => s.server_name == req.server_name)).length = 1 ∧
      server_rent cfg f2 req db1 = ⟨db1, [], Res.dupName⟩) ∧
    (∀ (cfg : Config) (f2 : Op → Bool) (hash : String → String)
        (req : CReq) (db db1 : DB) (log1 : List Op),
      db.containers.filter
        (fun c => c.container_name == req.container_name) = [] →
      rental cfg noFaults hash req db = ⟨db1, log1, Res.ok⟩ →
      (db1.containers.filter
        (fun c => c.container_name == req.container_name)).length = 1 ∧
      rental cfg f2 hash req db1 = ⟨db1, [], Res.dupName⟩) := by
  constructor
  · intro cfg f2 req db db1 log1 hs h
    have hshape := server_rent_ok_servers cfg noFaults req db db1 log1 h
    have hfilter : db1.servers.filter
        (fun s => s.server_name == req.server_name) =
        [mkServerRec req
          (req.network_name.getD cfg.default_internal_network)] := by
      rw [hshape, List.filter_append, hs]
      simp [mkServerRec]
    refine ⟨by rw [hfilter]; rfl, ?_⟩
    simp [server_rent, hfilter, oneOrNone]
  · intro cfg f2 hash req db db1 log1 hs h
    have hshape := rental_ok_containers cfg noFaults hash req db db1 log1 h
    have hfilter : db1.containers.filter
        (fun c => c.container_name == req.container_name) =
        [mkContainerRec hash req
          (req.network_name.getD cfg.external_network)] := by
      rw [hshape, List.filter_append, hs]
      simp [mkContainerRec]
    refine ⟨by rw [hfilter]; rfl, ?_⟩
    simp [rental, hfilter, oneOrNone]

/-- Closed witness for `c2_duplicate_rejection`: renting `srv1` and `c1`
twice each, starting from the empty inventory. -/
theorem c2_witness :
    ((db1C2.servers.filter
       (fun s => s.server_name == reqC1.server_name)).length = 1 ∧
     server_rent cfg0 noFaults reqC1 db1C2 = ⟨db1C2, [], Res.dupName⟩) ∧
    ((dbC10.containers.filter
       (fun c => c.container_name == creqC10.container_name)).length = 1 ∧
     rental cfg0 noFaults hash0 creqC10 dbC10 =
       ⟨dbC10, [], Res.dupName⟩) :=
  ⟨c2_duplicate_rejection.1 cfg0 noFaults reqC1 dbEmpty db1C2
     [Op.createFlavor "fl1" "n1", Op.networkIsolation "net1" "n1",
      Op.createServer "srv1" "n1", Op.allocateIp "srv1" "n1"]
     (by decide) (by decide),
   c2_duplicate_rejection.2 cfg0 noFaults hash0 creqC10 dbEmpty dbC10
     [Op.networkIsolation "net1" "n1", Op.createContainer "c1" "n1"]
     (by decide) (by decide)⟩

/-- C10: the credential stored at container rental is the digest of the
supplied password (never the plaintext: the stored field is the digest
function's output on it), and a container return whose supplied password
digests to anything different from the stored credential is rejected with
the 400 error before any side effect: inventory identical, no provider
call.  The digest function is abstract here, applied at both sites exactly
as `hashlib.sha256(...).hexdigest()` is in the source. -/
theorem c10_password_gate :
    (∀ (cfg : Config) (fault : Op → Bool) (hash : String → String)
        (req : CReq) (db db1 : DB) (logx : List Op),
      rental cfg fault hash req db = ⟨db1, logx, Res.ok⟩ →
      db1.containers = db.containers ++
        [mkContainerRec hash req
          (req.network_name.getD cfg.external_network)] ∧
      (mkContainerRec hash req
        (req.network_name.getD cfg.external_network)).password =
        hash req.password) ∧
    (∀ (fault : Op → Bool) (hash : String → String) (req : CRet) (db : DB)
        (c : ContainerRec),
      db.containers.filter
        (fun x => x.container_name == req.container_name) = [c] →
      hash req.password ≠ c.password →
      container_return fault hash req db = ⟨db, [], Res.badPassword⟩) := by
  constructor
  · intro cfg fault hash req db db1 logx h
    exact ⟨rental_ok_containers cfg fault hash req db db1 logx h, rfl⟩
  · intro fault hash req db c h1 h2
    have hb : (hash req.password != c.password) = true := bne_iff_ne.mpr h2
    simp [container_return, h1, one, hb]

/-- Closed witness for `c10_password_gate`: rent `c1` with password `pw`,
then attempt a return with password `wrong`. -/
theorem c10_witness :
    (dbC10.containers = dbEmpty.containers ++
       [mkContainerRec hash0 creqC10
         (creqC10.network_name.getD cfg0.external_network)] ∧
     (mkContainerRec hash0 creqC10
       (creqC10.network_name.getD cfg0.external_network)).password =
       hash0 creqC10.password) ∧
    container_return noFaults hash0 ⟨"c1", "wrong"⟩ dbC10 =
      ⟨dbC10, [], Res.badPassword⟩ :=
  ⟨c10_password_gate.1 cfg0 noFaults hash0 creqC10 dbEmpty dbC10
     [Op.networkIsolation "net1" "n1", Op.createContainer "c1" "n1"]
     (by decide),
   c10_password_gate.2 noFaults hash0 ⟨"c1", "wrong"⟩ dbC10
     ⟨"bob", "c1", ⟨2024, 1, 1⟩, ⟨2024, 2, 1⟩, "alpine", "Hpw", "cip-c1",
      "ports", "net1", "n1"⟩ (by decide) (by decide)⟩

/-- Closed witness for `c9_extend_frame` at the C9 fixture. -/
theorem c9_witness :
    server_renew dbC9 "absent" ⟨2025, 1, 1⟩ = (dbC9, Res.backendErr) ∧
    (server_renew dbC9 "s1" ⟨2025, 1, 1⟩).2 = Res.ok :=
  ⟨(c9_extend_frame dbC9 "absent" ⟨2025, 1, 1⟩).1 (by decide),
   ((c9_extend_frame dbC9 "s1" ⟨2025, 1, 1⟩).2.1
     ⟨"a", "s1", ⟨2023, 1, 1⟩, ⟨2024, 1, 1⟩, "f", "net", "n1", "fl", "img"⟩
     (by decide)).1⟩

end KWS
